import Mathlib

/-!
Shallow embedding of the `fluencelabs/example-sqldb` browser front-end
(`src/index.ts` and its sibling variant) in Lean 4, together with theorems
settling the frozen claims about its query-dispatch and status-polling logic.

The embedding follows the TypeScript source:
* `DbClient` (round-robin dispatcher over worker sessions) from
  `src/index.ts` lines 32-76;
* the `Promise.all` combinator used by `DbClient.status`;
* the polling controller `updateStatus` (guard flag `updating`, success and
  failure settlement) from `src/index.ts` lines 132-151;
* the timer toggle listener from `src/index.ts` lines 179-190;
* the query submission flow `submitQueries` and the submit-button click
  listener from `src/index.ts` lines 154-173;
* the HTML templating helpers `genStatus`, `genErrorStatus`, `shorten` and
  the constants `newLine`, `sep`.

Machine integers in the source are JavaScript numbers used only as array
indices and counters; they are modelled as `Nat` (all arithmetic involved is
small and non-negative: `(counter + 1) % size`).
-/

/-- A status info of one node of a real-time cluster (`interface Status`,
`src/index.ts` lines 25-30). -/
structure Status where
  addr : String
  block_hash : String
  app_hash : String
  block_height : Nat
  deriving Repr, DecidableEq

/-- `info.sync_info` fields read by `updateStatus` (`src/index.ts`
lines 141-147). -/
structure SyncInfo where
  latest_block_hash : String
  latest_app_hash : String
  latest_block_height : Nat
  deriving Repr, DecidableEq

/-- `info.node_info` field read by `updateStatus` (`src/index.ts` line 138). -/
structure NodeInfo where
  listen_addr : String
  deriving Repr, DecidableEq

/-- Payload of one per-node status response: `resp.result` with the fields
`updateStatus` destructures (`src/index.ts` lines 136-147). -/
structure WorkerStatusResult where
  node_info : NodeInfo
  sync_info : SyncInfo
  deriving Repr, DecidableEq

/-- One element of the list `status()` resolves with: the poll loop reads
`resp.result` (`src/index.ts` line 137). -/
structure WorkerStatus where
  result : WorkerStatusResult
  deriving Repr, DecidableEq

/-- The round-robin query dispatcher `class DbClient` (`src/index.ts`
lines 32-76).  `size` is `session.workerSessions.length`; `counter` is the
private round-robin counter.  The opaque session handles themselves carry no
data relevant to the claims, so the embedding keeps only the index
arithmetic; a dispatched query is recorded as the pair of the selected node
index and the query string. -/
structure DbClient where
  size : Nat
  counter : Nat
  deriving Repr, DecidableEq

/-- `constructor(session)` (`src/index.ts` lines 45-50): `size` is the
length of the worker-session array, `counter` starts at `0`. -/
def DbClient.init (sessionCount : Nat) : DbClient :=
  { size := sessionCount, counter := 0 }

/-- `private nextNodeIndex()` (`src/index.ts` lines 40-43):
`this.counter = (this.counter + 1) % this.size; return this.counter;`.
Returns the new counter value together with the updated client state. -/
def DbClient.nextNodeIndex (c : DbClient) : Nat × DbClient :=
  let counter := (c.counter + 1) % c.size
  (counter, { c with counter := counter })

/-- A pending query result handle, identified by the node index the query
was sent to and the query string (`workerSession.session.invoke(q).result()`,
`src/index.ts` line 60). -/
structure PendingResult where
  nodeIndex : Nat
  query : String
  deriving Repr, DecidableEq

/-- `async submitQuery(queries)` (`src/index.ts` lines 56-66): selects
`workerSessions[this.nextNodeIndex()]` once, then maps every query in the
batch to an invocation on that single session.  Returns the updated client
and the list of pending results, in input order. -/
def DbClient.submitQuery (c : DbClient) (queries : List String) :
    DbClient × List PendingResult :=
  let sel := c.nextNodeIndex
  (sel.2, queries.map (fun q => { nodeIndex := sel.1, query := q }))

/-- `Promise.all` over a list of already-settled outcomes: resolves with the
list of values when every element resolved, rejects with the (leftmost)
rejection otherwise.  This is the all-or-nothing combinator `status()` uses
(`src/index.ts` line 72). -/
def promiseAll {ε α : Type} : List (Except ε α) → Except ε (List α)
  | [] => Except.ok []
  | Except.ok a :: rest =>
      match promiseAll rest with
      | Except.ok as => Except.ok (a :: as)
      | Except.error e => Except.error e
  | Except.error e :: _ => Except.error e

/-- `async status(appId)` (`src/index.ts` lines 71-75):
`Promise.all(this.appSession.workerSessions.map((session) =>
monitoring.getWorkerStatus(session.node, parseInt(appId))))`.
The external `getWorkerStatus` call is modelled by its outcome: the argument
list gives, per node in Session Set order, either the resolved
`WorkerStatus` or the rejection (an error rendered as a string). -/
def DbClient.status (outcomes : List (Except String WorkerStatus)) :
    Except String (List WorkerStatus) :=
  promiseAll outcomes

/-- `shorten(str, size)` (`src/index.ts` lines 117-119):
`str.substring(0, size) + "..." + str.substring(str.length - size, str.length)`.
JavaScript `substring` clamps negative start indices to `0`, which matches
truncated `Nat` subtraction. -/
def shorten (str : String) (size : Nat) : String :=
  str.take size ++ "..." ++ str.drop (str.length - size)

/-- `genStatus(status)` (`src/index.ts` lines 94-103): HTML template for one
node's status block. -/
def genStatus (status : Status) : String :=
  "<div class=\"m-2 rounded border list-group-item-info p-2\">\n" ++
  "                <label class=\"text-dark ml-2 mb-0\" style=\"font-size: 0.8rem\">" ++
  status.addr ++ "</label>\n" ++
  "                <ul class=\"list-unstyled mb-0 ml-4\" style=\"font-size: 0.7rem\">\n" ++
  "                    <li>height: " ++ toString status.block_height ++ "</li>\n" ++
  "                    <li>block_hash: " ++ status.block_hash ++ "</li>\n" ++
  "                    <li>app_hash: " ++ status.app_hash ++ "</li>\n" ++
  "                </ul>\n" ++
  "            </div>"

/-- `genErrorStatus(addr, error)` (`src/index.ts` lines 105-112): HTML
template for one error block. -/
def genErrorStatus (addr : String) (error : String) : String :=
  "<div class=\"m-2 rounded border list-group-item-info p-2\">\n" ++
  "                <label class=\"text-dark ml-2 mb-0\" style=\"font-size: 0.8rem\">" ++
  addr ++ "</label>\n" ++
  "                <ul class=\"list-unstyled mb-0 ml-4\" style=\"font-size: 0.7rem\">\n" ++
  "                    <li>error: " ++ error ++ "</li>\n" ++
  "                </ul>\n" ++
  "            </div>"

/-- `let newLine = String.fromCharCode(13, 10)` (`src/index.ts` line 121). -/
def newLine : String :=
  String.mk [Char.ofNat 13, Char.ofNat 10]

/-- `let sep = "**************************"` (`src/index.ts` line 122). -/
def sep : String := "**************************"

/-- The body of the success callback of `updateStatus` applied to one
response (`src/index.ts` lines 136-148): destructure `resp.result`, shorten
the hashes to 10 characters each side, render with `genStatus`. -/
def renderStatusResponse (resp : WorkerStatus) : String :=
  genStatus
    { addr := resp.result.node_info.listen_addr
      block_hash := shorten resp.result.sync_info.latest_block_hash 10
      app_hash := shorten resp.result.sync_info.latest_app_hash 10
      block_height := resp.result.sync_info.latest_block_height }

/-- State of the polling controller (`src/index.ts` lines 78, 132-151):
`updating` is the module-level in-flight guard flag, `statusField` is
`statusField.innerHTML`, and `statusCalls` is an observation variable
counting how many times `client.status(...)` has been invoked. -/
structure PollState where
  updating : Bool
  statusField : String
  statusCalls : Nat
  deriving Repr, DecidableEq

/-- The synchronous part of one timer tick of `updateStatus`
(`src/index.ts` lines 132-135): `if (updating) return; updating = true;`
then `client.status(appId)` is invoked (counted in `statusCalls`). -/
def updateStatusTick (s : PollState) : PollState :=
  if s.updating then s
  else { s with updating := true, statusCalls := s.statusCalls + 1 }

/-- Settlement of the `status()` promise started by `updateStatus`
(`src/index.ts` lines 135-150).  On success the `.then` callback writes
`r.map(...).join("\n")` to `statusField.innerHTML`.  On failure the
`.catch((e) => genErrorStatus("", e))` callback merely computes
`genErrorStatus("", e)` and returns it; the value is discarded and
`statusField.innerHTML` is not written.  In both cases `.finally` clears
`updating`. -/
def updateStatusSettle (s : PollState) (outcome : Except String (List WorkerStatus)) :
    PollState :=
  match outcome with
  | Except.ok r =>
      { s with
        statusField := String.intercalate "\n" (r.map renderStatusResponse)
        updating := false }
  | Except.error _ =>
      -- the catch callback evaluates `genErrorStatus "" e` but its result
      -- is not assigned to `statusField.innerHTML`
      { s with updating := false }

/-- `"Stop update status"`, the toggle-button label while polling is armed
(`src/index.ts` line 180). -/
def stopLabel : String := "Stop update status"

/-- `"Start update status"`, the toggle-button label while polling is
cancelled (`src/index.ts` line 181). -/
def startLabel : String := "Start update status"

/-- State of the page around the polling controller: whether the repeating
`setInterval` timer is armed, the toggle button's label
(`updateStatusBtn.value`), and the poll state. -/
structure UiState where
  timerActive : Bool
  btnLabel : String
  poll : PollState
  deriving Repr, DecidableEq

/-- The `updateStatusBtn` click listener (`src/index.ts` lines 179-190):
if the label reads `stop`, `clearInterval(timer)` and relabel to `start`;
otherwise re-arm `setInterval(updateStatus, 500)` and relabel to `stop`. -/
def toggleTimer (s : UiState) : UiState :=
  if s.btnLabel = stopLabel then
    { s with timerActive := false, btnLabel := startLabel }
  else
    { s with timerActive := true, btnLabel := stopLabel }

/-- Events driving the polling controller: a timer tick (delivered only
while the `setInterval` timer is armed), a press of the toggle button, and
the settlement of an in-flight `status()` call. -/
inductive UiEvent where
  | tick
  | toggle
  | settle (outcome : Except String (List WorkerStatus))

/-- One step of the page's event loop.  A cancelled timer fires no
callbacks, so a `tick` while `timerActive = false` changes nothing; a
`settle` applies the promise callbacks of the already-issued `status()`
call regardless of the timer (the call is not cancelled). -/
def uiStep (s : UiState) : UiEvent → UiState
  | UiEvent.tick =>
      if s.timerActive then { s with poll := updateStatusTick s.poll } else s
  | UiEvent.toggle => toggleTimer s
  | UiEvent.settle o => { s with poll := updateStatusSettle s.poll o }

/-- Run a sequence of events through the event loop. -/
def uiRun (s : UiState) : List UiEvent → UiState
  | [] => s
  | e :: es => uiRun (uiStep s e) es

/-- JavaScript `String.replace` with a string pattern: replace the first
occurrence of `pat` by `rep` (used by `r.asString().replace('\\n', newLine)`,
`src/index.ts` line 159). -/
def replaceFirst (pat rep : List Char) : List Char → List Char
  | [] => []
  | c :: rest =>
      if pat.isPrefixOf (c :: rest) then rep ++ (c :: rest).drop pat.length
      else c :: replaceFirst pat rep rest

/-- State of the query-submission surface: the query input field
(`inputField.value`), the output panel (`resultField.value`), and the
dispatcher. -/
structure SubmitUi where
  inputField : String
  resultField : String
  client : DbClient
  deriving Repr, DecidableEq

/-- The synchronous part of the submit flow: the `btn` click listener
(`src/index.ts` lines 168-173) guarded by `inputField.value.length !== 0`,
calling `submitQueries(inputField.value)` (`src/index.ts` lines 154-166)
which clears `resultField.value` and dispatches
`client.submitQuery(queries.split('\n'))`, then clearing
`inputField.value`.  Returns the new page state together with the list of
pending results dispatched (empty when the guard fails). -/
def btnClick (s : SubmitUi) : SubmitUi × List PendingResult :=
  if s.inputField.length ≠ 0 then
    let dispatched := s.client.submitQuery (s.inputField.split (· == '\n'))
    ({ inputField := "", resultField := "", client := dispatched.1 }, dispatched.2)
  else
    (s, [])

/-- Resolution of one pending result `pr` inside `submitQueries`
(`src/index.ts` lines 157-161): `strRes = r.asString().replace('\\n',
newLine)` and `resultField.value += sep + newLine + strRes + newLine + sep`.
Takes the current panel contents and the raw result string, returns the new
panel contents. -/
def resolveResult (resultField : String) (r : String) : String :=
  let strRes := String.mk (replaceFirst ("\\n".data) newLine.data r.data)
  resultField ++ (sep ++ newLine ++ strRes ++ newLine ++ sep)

/-- Iterated single-query submit calls: the client state after `n`
sequential `submitQuery(["q1"])` calls starting from a freshly constructed
client over `sessionCount` worker sessions. -/
def clientAfter (sessionCount : Nat) : Nat → DbClient
  | 0 => DbClient.init sessionCount
  | n + 1 => ((clientAfter sessionCount n).submitQuery ["q1"]).1

/-- The node index selected by the `i`-th (0-based) sequential
`submitQuery` call: `nextNodeIndex` returns the counter value it just
stored, so the selected index is the counter after `i + 1` calls. -/
def selectedIndexAt (sessionCount i : Nat) : Nat :=
  (clientAfter sessionCount (i + 1)).counter

/-- Fold a list of query batches through `submitQuery`. -/
def runCalls (c : DbClient) : List (List String) → DbClient
  | [] => c
  | qs :: rest => runCalls (c.submitQuery qs).1 rest

/-! ## Helper lemmas -/

theorem clientAfter_size (S n : Nat) : (clientAfter S n).size = S := by
  induction n with
  | zero => rfl
  | succ n ih => simp [clientAfter, DbClient.submitQuery, DbClient.nextNodeIndex, ih]

theorem clientAfter_counter (S n : Nat) : (clientAfter S n).counter = n % S := by
  induction n with
  | zero => simp [clientAfter, DbClient.init]
  | succ n ih =>
      simp [clientAfter, DbClient.submitQuery, DbClient.nextNodeIndex, ih,
        clientAfter_size, Nat.mod_add_mod]

theorem runCalls_size (bs : List (List String)) (c : DbClient) :
    (runCalls c bs).size = c.size := by
  induction bs generalizing c with
  | nil => rfl
  | cons qs rest ih =>
      simpa [runCalls, DbClient.submitQuery, DbClient.nextNodeIndex] using
        ih (c.submitQuery qs).1

theorem runCalls_counter_lt (bs : List (List String)) (c : DbClient)
    (h0 : 0 < c.size) (h1 : c.counter < c.size) :
    (runCalls c bs).counter < c.size := by
  induction bs generalizing c with
  | nil => exact h1
  | cons qs rest ih =>
      have hsz : ((c.submitQuery qs).1).size = c.size := by
        simp [DbClient.submitQuery, DbClient.nextNodeIndex]
      have hc : ((c.submitQuery qs).1).counter < ((c.submitQuery qs).1).size := by
        simp only [DbClient.submitQuery, DbClient.nextNodeIndex]
        exact Nat.mod_lt _ h0
      have := ih (c.submitQuery qs).1 (hsz ▸ h0) hc
      rw [hsz] at this
      simpa [runCalls] using this

/-! ## Claims -/

/-- C1 counterexample: the claim says the node index selected by the i-th
call (0-based) equals `i mod S`; but with a Session Set of size 3, the 0-th
`submitQuery` call selects node index 1, not `0 % 3 = 0` (so three calls
route to B, C, A, not A, B, C): `nextNodeIndex` increments the counter
*before* using it as an index. -/
theorem selected_index_claim_false :
    selectedIndexAt 3 0 = 1 ∧ selectedIndexAt 3 0 ≠ 0 % 3 := by
  decide

/-- C1 (amended): for every Session Set of size S and every i, the node
index selected by the i-th `submitQuery` call (0-based) equals
`(i + 1) mod S`; in particular, with Session Set [A, B, C], three
sequential single-query submit calls route to B (index 1), then C
(index 2), then A (index 0). -/
theorem selected_index_succ_mod (S i : Nat) :
    selectedIndexAt S i = (i + 1) % S ∧
    ((clientAfter S i).submitQuery ["q1"]).2.map PendingResult.nodeIndex
      = [(i + 1) % S] ∧
    [selectedIndexAt 3 0, selectedIndexAt 3 1, selectedIndexAt 3 2] = [1, 2, 0] := by
  refine ⟨?_, ?_, by decide⟩
  · simp [selectedIndexAt, clientAfter_counter]
  · simp [DbClient.submitQuery, DbClient.nextNodeIndex, clientAfter_counter,
      clientAfter_size, Nat.mod_add_mod]

/-- C5: `submitQuery` advances the Dispatch Cursor exactly once for the
whole call (not once per query), forwards every query in the batch to the
single node selected by the cursor at call time, and returns pending
results whose length equals the number of input queries, in input order. -/
theorem submitQuery_batch_spec (c : DbClient) (queries : List String) :
    (c.submitQuery queries).1.counter = (c.counter + 1) % c.size ∧
    (c.submitQuery queries).1.size = c.size ∧
    (c.submitQuery queries).2.length = queries.length ∧
    (∀ pr ∈ (c.submitQuery queries).2,
      pr.nodeIndex = (c.counter + 1) % c.size) ∧
    (c.submitQuery queries).2.map PendingResult.query = queries := by
  refine ⟨rfl, rfl, by simp [DbClient.submitQuery], ?_, ?_⟩
  · intro pr hpr
    simp only [DbClient.submitQuery, DbClient.nextNodeIndex, List.mem_map] at hpr
    obtain ⟨q, _, rfl⟩ := hpr
    rfl
  · simp only [DbClient.submitQuery, List.map_map]
    exact List.map_id queries

/-- C7: the Dispatch Cursor is always a valid index into the Session Set:
for every Session Set of size S ≥ 1 and every sequence of `submitQuery`
calls, the cursor stays in `[0, S)` (lower bound is by the `Nat` type). -/
theorem cursor_always_valid_index (S : Nat) (hS : 0 < S)
    (batches : List (List String)) :
    (runCalls (DbClient.init S) batches).counter < S := by
  have h := runCalls_counter_lt batches (DbClient.init S) hS hS
  simpa [DbClient.init] using h

/-- C7 witness: with a Session Set of size 3, after the calls
`[["a", "b"], [], ["c"]]` the cursor is below 3. -/
theorem cursor_always_valid_index_witness :
    (runCalls (DbClient.init 3) [["a", "b"], [], ["c"]]).counter < 3 :=
  cursor_always_valid_index 3 (by decide) [["a", "b"], [], ["c"]]

/-- C10: `submitQuery` with an empty query list still advances the Dispatch
Cursor by one (mod S) even though the returned list of pending results is
empty. -/
theorem submitQuery_empty_batch (c : DbClient) :
    (c.submitQuery []).1.counter = (c.counter + 1) % c.size ∧
    (c.submitQuery []).2 = [] :=
  ⟨rfl, rfl⟩

/-- C2 (code bug): `status()` uses the all-or-nothing `Promise.all`
combinator, so with Session Set [A, B, C] where B's status request fails
and A's and C's succeed, the whole call rejects with B's error instead of
returning `[ok(A), error(B), ok(C)]`: B's failure suppresses A's and C's
results. -/
theorem status_rejects_whole_batch :
    DbClient.status
      [Except.ok { result := { node_info := { listen_addr := "tcp://nodeA:26656" },
                               sync_info := { latest_block_hash := "AAAA",
                                              latest_app_hash := "aaaa",
                                              latest_block_height := 10 } } },
       Except.error "node B unreachable",
       Except.ok { result := { node_info := { listen_addr := "tcp://nodeC:26656" },
                               sync_info := { latest_block_hash := "CCCC",
                                              latest_app_hash := "cccc",
                                              latest_block_height := 10 } } }]
      = Except.error "node B unreachable" := rfl

/-- C3 (code bug): when the `status()` promise rejects, `.finally` clears
the in-flight flag as claimed, but the `.catch` callback only computes the
error block and discards it — `statusField.innerHTML` is never written, so
the status panel keeps its previous contents instead of holding the
formatted error block. -/
theorem updateStatus_failure_discards_error_block :
    updateStatusSettle { updating := true, statusField := "prev", statusCalls := 1 }
        (Except.error "boom")
      = { updating := false, statusField := "prev", statusCalls := 1 } ∧
    genErrorStatus "" "boom" ≠ "prev" :=
  ⟨rfl, by decide⟩

/-- C4: a timer tick that fires while a previous poll has not settled
(`updating = true`) is a no-op, performing zero additional `status()`
calls; and two ticks fired from an idle state before the first poll
settles make exactly one `status()` call, the second tick being a no-op. -/
theorem tick_overlap_guard (s t : PollState) (hs : s.updating = true)
    (ht : t.updating = false) :
    updateStatusTick s = s ∧
    (updateStatusTick (updateStatusTick t)).statusCalls = t.statusCalls + 1 ∧
    updateStatusTick (updateStatusTick t) = updateStatusTick t := by
  refine ⟨?_, ?_, ?_⟩ <;> simp [updateStatusTick, hs, ht]

/-- C4 witness: the overlap guard at concrete poll states. -/
theorem tick_overlap_guard_witness :
    updateStatusTick { updating := true, statusField := "p", statusCalls := 1 }
      = { updating := true, statusField := "p", statusCalls := 1 } ∧
    (updateStatusTick (updateStatusTick
        { updating := false, statusField := "p", statusCalls := 0 })).statusCalls
      = 0 + 1 ∧
    updateStatusTick (updateStatusTick
        { updating := false, statusField := "p", statusCalls := 0 })
      = updateStatusTick { updating := false, statusField := "p", statusCalls := 0 } :=
  tick_overlap_guard
    { updating := true, statusField := "p", statusCalls := 1 }
    { updating := false, statusField := "p", statusCalls := 0 } rfl rfl

theorem uiRun_ticks_inactive (evs : List UiEvent) (s : UiState)
    (h : s.timerActive = false) :
    (∀ e ∈ evs, e = UiEvent.tick) → uiRun s evs = s := by
  induction evs with
  | nil => intro _; rfl
  | cons e rest ih =>
      intro hevs
      have he := hevs e (List.mem_cons_self e rest)
      subst he
      have hstep : uiStep s UiEvent.tick = s := by simp [uiStep, h]
      rw [uiRun, hstep]
      exact ih (fun e' he' => hevs e' (List.mem_cons_of_mem _ he'))

/-- C6: pressing the toggle button while it reads "Stop update status"
cancels the repeating timer, after which any number of timer ticks change
nothing (zero new `status()` calls are made); but the settlement of a
`status()` call already in flight still runs its callbacks and updates the
status display. -/
theorem toggle_off_cancellation (s : UiState) (h : s.btnLabel = stopLabel)
    (evs : List UiEvent) (hevs : ∀ e ∈ evs, e = UiEvent.tick)
    (r : List WorkerStatus) :
    (uiStep s UiEvent.toggle).timerActive = false ∧
    uiRun (uiStep s UiEvent.toggle) evs = uiStep s UiEvent.toggle ∧
    (uiRun (uiStep s UiEvent.toggle) evs).poll.statusCalls = s.poll.statusCalls ∧
    (uiStep (uiRun (uiStep s UiEvent.toggle) evs)
        (UiEvent.settle (Except.ok r))).poll.statusField
      = String.intercalate "\n" (r.map renderStatusResponse) := by
  have h1 : uiStep s UiEvent.toggle
      = { s with timerActive := false, btnLabel := startLabel } := by
    simp [uiStep, toggleTimer, h]
  have h2 : uiRun (uiStep s UiEvent.toggle) evs = uiStep s UiEvent.toggle :=
    uiRun_ticks_inactive evs _ (by rw [h1]) hevs
  refine ⟨by rw [h1], h2, by rw [h2, h1], ?_⟩
  rw [h2]
  simp [uiStep, updateStatusSettle]

/-- Sample page state with polling armed, used by the C6 witness. -/
def sampleUi : UiState :=
  { timerActive := true
    btnLabel := "Stop update status"
    poll := { updating := true, statusField := "p", statusCalls := 1 } }

/-- Sample per-node status response, used by the C6 witness. -/
def sampleWorker : WorkerStatus :=
  { result := { node_info := { listen_addr := "tcp://nodeA:26656" }
                sync_info := { latest_block_hash := "0123456789abcdef0123"
                               latest_app_hash := "fedcba9876543210fedc"
                               latest_block_height := 42 } } }

/-- C6 witness: toggle off with a poll in flight, two dead ticks, then the
in-flight poll settles and still updates the display. -/
theorem toggle_off_cancellation_witness :
    sampleUi.btnLabel = stopLabel ∧
    ((uiStep sampleUi UiEvent.toggle).timerActive = false ∧
     uiRun (uiStep sampleUi UiEvent.toggle) [UiEvent.tick, UiEvent.tick]
       = uiStep sampleUi UiEvent.toggle ∧
     (uiRun (uiStep sampleUi UiEvent.toggle)
         [UiEvent.tick, UiEvent.tick]).poll.statusCalls
       = sampleUi.poll.statusCalls ∧
     (uiStep (uiRun (uiStep sampleUi UiEvent.toggle) [UiEvent.tick, UiEvent.tick])
         (UiEvent.settle (Except.ok [sampleWorker]))).poll.statusField
       = String.intercalate "\n" ([sampleWorker].map renderStatusResponse)) :=
  ⟨rfl, toggle_off_cancellation sampleUi rfl [UiEvent.tick, UiEvent.tick]
    (by intro e he
        rcases List.mem_cons.mp he with rfl | he'
        · rfl
        · rcases List.mem_cons.mp he' with rfl | h0
          · rfl
          · cases h0)
    [sampleWorker]⟩

/-- C8: a user submission with non-empty input clears the input field in
the synchronous part of the click handler (before any result resolves),
splits the input into lines and passes exactly those lines to
`submitQuery`; and each result, as it resolves, is appended to the output
panel (the previous panel contents stay as a prefix), wrapped between the
fixed delimiter `sep` lines. -/
theorem submit_flow_spec (s : SubmitUi) (h : s.inputField.length ≠ 0)
    (panel r : String) :
    (btnClick s).1.inputField = "" ∧
    (btnClick s).2.map PendingResult.query = s.inputField.split (· == '\n') ∧
    (∃ strRes, resolveResult panel r
        = panel ++ (sep ++ newLine ++ strRes ++ newLine ++ sep)) := by
  refine ⟨?_, ?_, ⟨_, rfl⟩⟩
  · simp [btnClick, h]
  · simp only [btnClick, if_pos h, DbClient.submitQuery, List.map_map]
    exact List.map_id _

/-- Sample submission state, used by the C8 witness. -/
def sampleSubmitUi : SubmitUi :=
  { inputField := "a\nb", resultField := "old", client := { size := 3, counter := 0 } }

/-- C8 witness: submitting the two-line input "a\nb" at a concrete state. -/
theorem submit_flow_spec_witness :
    sampleSubmitUi.inputField.length ≠ 0 ∧
    ((btnClick sampleSubmitUi).1.inputField = "" ∧
     (btnClick sampleSubmitUi).2.map PendingResult.query
       = sampleSubmitUi.inputField.split (· == '\n') ∧
     (∃ strRes, resolveResult "P" "res"
         = "P" ++ (sep ++ newLine ++ strRes ++ newLine ++ sep))) :=
  ⟨by decide, submit_flow_spec sampleSubmitUi (by decide) "P" "res"⟩

/-- C9: triggering submission with an empty input field dispatches nothing:
the guard `inputField.value.length !== 0` fails, no `submitQuery` call
occurs (the dispatched list is empty and the client, including its cursor,
is untouched) and the whole page state — output panel included — is
unchanged. -/
theorem empty_input_no_dispatch (s : SubmitUi) (h : s.inputField = "") :
    btnClick s = (s, []) := by
  simp [btnClick, h]

/-- C9 witness: an empty submission at a concrete state with prior output. -/
theorem empty_input_no_dispatch_witness :
    btnClick { inputField := "", resultField := "keep", client := { size := 3, counter := 2 } }
      = ({ inputField := "", resultField := "keep", client := { size := 3, counter := 2 } }, []) :=
  empty_input_no_dispatch
    { inputField := "", resultField := "keep", client := { size := 3, counter := 2 } } rfl
